import Mathlib

/-!
Shallow embedding of the reconciliation engine of matrixorigin/controller-runtime
(package reconciler): the Reconcile state machine, actor-error classification
(processActorError), the finalizer flow (finalize / ensureFinalizer /
removeFinalizer), dependency gating (waitDependencies), the patch builder
(buildPatch / Patch / PatchStatus) and the object factory (setupObjectFactory).

External calls (kube-apiserver reads/writes, the actor's Observe / Finalize,
the returned Action) are modelled by an environment record that fixes the
outcome each call would return in the invocation under study; the engine's
control flow over those outcomes is translated from the Go source.
-/

deriving instance DecidableEq for Except

namespace CtrlRun

/-- Go time.Duration, in nanoseconds. -/
abbrev Duration := Nat

def second : Duration := 1000000000

/-- defaultRequeueAfter = 2 * time.Second (package reconciler). -/
def defaultRequeueAfter : Duration := 2 * second

/-- recon.Result: Requeue flag plus RequeueAfter duration. -/
structure ReconResult where
  requeue : Bool
  requeueAfter : Duration
deriving DecidableEq, Repr

/-- retry = recon.Result{Requeue: true, RequeueAfter: defaultRequeueAfter}. -/
def retry : ReconResult := { requeue := true, requeueAfter := defaultRequeueAfter }

/-- forget = recon.Result{Requeue: false}. -/
def forget : ReconResult := { requeue := false, requeueAfter := 0 }

/-- backoff = recon.Result{Requeue: true}: exponential backoff by the dispatcher. -/
def backoff : ReconResult := { requeue := true, requeueAfter := 0 }

/-- Event reasons emitted through the event recorder. -/
def reconcileSuccess : String := "ReconcileSuccess"

def reconcileFail : String := "ReconcileFail"

def finalizeFail : String := "FinalizeFail"

/-- metav1.ConditionStatus. -/
inductive CStatus where
  | ctrue
  | cfalse
  | cunknown
deriving DecidableEq, Repr

/-- metav1.Condition (lastTransitionTime omitted: no claim observes it). -/
structure Condition where
  ctype : String
  status : CStatus
  observedGeneration : Nat
  reason : String
  message : String
deriving DecidableEq, Repr

/-- meta.SetStatusCondition: upsert by condition type. -/
def setStatusCondition (conds : List Condition) (c : Condition) : List Condition :=
  match conds with
  | [] => [c]
  | c0 :: rest =>
    if c0.ctype = c.ctype then c :: rest else c0 :: setStatusCondition rest c

/-- ConditionalStatus.SetCondition: default reason injection, then upsert. -/
def setCondition (conds : List Condition) (c : Condition) : List Condition :=
  setStatusCondition conds (if c.reason = "" then { c with reason := "empty" } else c)

/-- The synced(b, generation) condition constructor of the reconciler package. -/
def synced (b : Bool) (generation : Nat) : Condition :=
  if b then
    { ctype := "Synced", status := .ctrue, observedGeneration := generation,
      reason := "", message := "the object is synced" }
  else
    { ctype := "Synced", status := .cfalse, observedGeneration := generation,
      reason := "", message := "the object is reconciling" }

/-- A managed client.Object as the engine sees it: identity, generation,
finalizer list, deletion flag, and the optional Conditional / Dependant
capabilities. -/
structure Obj where
  ns : String
  name : String
  generation : Nat
  finalizers : List String
  deleted : Bool
  isConditional : Bool
  conditions : List Condition
  isDependant : Bool
deriving DecidableEq, Repr

/-- A store write error kind, as distinguished by kerr.IsConflict. -/
inductive WriteErr where
  | conflict
  | other
deriving DecidableEq, Repr

/-- An error from the initial Get, as distinguished by kerr.IsNotFound. -/
structure GetErr where
  isNotFound : Bool
deriving DecidableEq, Repr

/-- An error returned by the actor (Observe, Finalize, or the executed Action),
characterised by the predicates processActorError applies to it:
IsNil (nil concrete cause in a non-nil interface), errors.As to *ReSync
(carrying RequeueAfter), kerr.IsConflict, and errors.As to *errors.Error
(a go-errors stack-trace error). -/
structure ActorErr where
  isNilInterface : Bool
  resyncAfter : Option Duration
  isConflict : Bool
  hasStack : Bool
deriving DecidableEq, Repr

/-- The error value a Reconcile invocation returns, tagged by which step
produced and wrapped it. -/
inductive RErr where
  | getFailed (e : GetErr)
  | depWaitFailed (e : Nat)
  | finalizerFailed (e : WriteErr)
  | statusFailed (e : WriteErr)
  | actorFailed (e : ActorErr)
deriving DecidableEq, Repr

/-- The outcome one declared dependency entry would report if evaluated
(ObjectDependency.IsReady: a Get refresh then ReadyFunc). -/
inductive DepOutcome where
  | ready
  | notReady
  | errored (e : Nat)
deriving DecidableEq, Repr

/-- waitDependencies: walk the declared list in order, fail fast. -/
def waitDependencies : List DepOutcome → Bool × Option Nat
  | [] => (true, none)
  | .ready :: rest => waitDependencies rest
  | .notReady :: _ => (false, none)
  | .errored e :: _ => (false, some e)

/-- Number of dependency entries the waitDependencies loop evaluates. -/
def depsEvaluated : List DepOutcome → Nat
  | [] => 0
  | .ready :: rest => 1 + depsEvaluated rest
  | .notReady :: _ => 1
  | .errored _ :: _ => 1

/-- Reconciler configuration: name and the Skip* options. -/
structure ROpts where
  name : String
  skipFinalizer : Bool
  skipPatchFinalizer : Bool
  skipStatusSync : Bool
deriving DecidableEq, Repr

/-- r.finalizer(): "matrixorigin.io/" + name. -/
def finalizerOf (r : ROpts) : String := "matrixorigin.io/" ++ r.name

/-- r.updateStatus: skipped entirely when skipStatusSync, otherwise the outcome
of ctx.UpdateStatus. -/
def updateStatus (r : ROpts) (e : Option WriteErr) : Option WriteErr :=
  if r.skipStatusSync then none else e

/-- What processActorError returns, together with the events it emitted and the
in-memory object it left behind. -/
structure PAEOut where
  result : ReconResult
  err : Option RErr
  events : List String
  obj : Obj
deriving DecidableEq, Repr

/-- processActorError, translated from the Go source: IsNil check; record
Synced=False (when Conditional) and write status — any write error returns
retry with nil error; then resync, conflict, failure event, stack-trace
swallowing, and finally propagate. `swErr` is the outcome ctx.UpdateStatus
would report for the nested status write. -/
def processActorError (r : ROpts) (swErr : Option WriteErr) (obj : Obj)
    (actorErr : ActorErr) : PAEOut :=
  if actorErr.isNilInterface then
    { result := backoff, err := none, events := [], obj := obj }
  else
    let lastErrCond : Condition :=
      { ctype := "Synced", status := .cfalse, observedGeneration := obj.generation,
        reason := "", message := "Last error" }
    let obj1 :=
      if obj.isConditional then
        { obj with conditions := setCondition obj.conditions lastErrCond }
      else obj
    match updateStatus r swErr with
    | some w =>
      if w = WriteErr.conflict then
        { result := retry, err := none, events := [], obj := obj1 }
      else
        { result := retry, err := none, events := [], obj := obj1 }
    | none =>
      match actorErr.resyncAfter with
      | some d =>
        { result := { requeue := true, requeueAfter := d }, err := none,
          events := [], obj := obj1 }
      | none =>
        if actorErr.isConflict then
          { result := retry, err := none, events := [], obj := obj1 }
        else if actorErr.hasStack then
          { result := backoff, err := none, events := [reconcileFail], obj := obj1 }
        else
          { result := backoff, err := some (.actorFailed actorErr),
            events := [reconcileFail], obj := obj1 }

/-- Outcomes of the external calls one Reconcile invocation may perform:
the initial Get, each declared dependency's readiness evaluation, the
ctx.Update of ensureFinalizer, Actor.Observe (an Option action id, or an
error), the ctx.UpdateStatus of the main flow, the executed action's error,
the ctx.UpdateStatus performed inside processActorError, Actor.Finalize, and
the ctx.Update of removeFinalizer. -/
structure Env where
  fetch : Except GetErr Obj
  depResults : List DepOutcome
  finalizerUpdateErr : Option WriteErr
  observe : Except ActorErr (Option Nat)
  statusUpdateErr : Option WriteErr
  actionErr : Option ActorErr
  paeStatusUpdateErr : Option WriteErr
  finalizeResult : Except ActorErr Bool
  removeFinalizerUpdateErr : Option WriteErr
deriving DecidableEq, Repr

/-- controllerutil.AddFinalizer: append if absent; the Bool reports whether the
object changed. -/
def addFinalizer (obj : Obj) (f : String) : Obj × Bool :=
  if f ∈ obj.finalizers then (obj, false)
  else ({ obj with finalizers := obj.finalizers ++ [f] }, true)

/-- r.ensureFinalizer: skipped under either skip option; otherwise AddFinalizer
and, only if the object changed, ctx.Update (whose outcome is updErr). -/
def ensureFinalizer (r : ROpts) (updErr : Option WriteErr) (obj : Obj) :
    Obj × Option WriteErr :=
  if r.skipFinalizer then (obj, none)
  else if r.skipPatchFinalizer then (obj, none)
  else
    match addFinalizer obj (finalizerOf r) with
    | (obj1, true) => (obj1, updErr)
    | (obj1, false) => (obj1, none)

/-- controllerutil.RemoveFinalizer: drop every occurrence; the Bool reports
whether the object changed. -/
def removeFinalizer (obj : Obj) (f : String) : Obj × Bool :=
  if f ∈ obj.finalizers then
    ({ obj with finalizers := obj.finalizers.filter (fun x => x != f) }, true)
  else (obj, false)

/-- r.removeFinalizer: no-op under skipPatchFinalizer; otherwise
RemoveFinalizer and, only if the object changed, ctx.Update. -/
def removeFinalizerStep (r : ROpts) (updErr : Option WriteErr) (obj : Obj) :
    Obj × Option WriteErr :=
  if r.skipPatchFinalizer then (obj, none)
  else
    match removeFinalizer obj (finalizerOf r) with
    | (obj1, true) => (obj1, updErr)
    | (obj1, false) => (obj1, none)

/-- What one Reconcile invocation returns together with its observable
effects: the emitted events, whether Actor.Finalize / Actor.Observe / the
action were invoked, and the in-memory object at return. -/
structure Out where
  result : ReconResult
  err : Option RErr
  events : List String
  finalizeCalled : Bool
  observeCalled : Bool
  actionExecuted : Bool
  objFinal : Option Obj
deriving DecidableEq, Repr

/-- r.finalize: the deletion flow. With the finalizer not present (and
skipPatchFinalizer unset) forget at once without calling Actor.Finalize;
otherwise classify Finalize's outcome as in the Go source. -/
def finalize (r : ROpts) (env : Env) (obj : Obj) : Out :=
  if !r.skipPatchFinalizer && !(finalizerOf r ∈ obj.finalizers : Bool) then
    { result := forget, err := none, events := [], finalizeCalled := false,
      observeCalled := false, actionExecuted := false, objFinal := some obj }
  else
    match env.finalizeResult with
    | .error e =>
      if e.isNilInterface then
        { result := backoff, err := none, events := [], finalizeCalled := true,
          observeCalled := false, actionExecuted := false, objFinal := some obj }
      else if e.hasStack then
        { result := backoff, err := none, events := [finalizeFail],
          finalizeCalled := true, observeCalled := false,
          actionExecuted := false, objFinal := some obj }
      else
        { result := backoff, err := some (.actorFailed e),
          events := [finalizeFail], finalizeCalled := true,
          observeCalled := false, actionExecuted := false, objFinal := some obj }
    | .ok false =>
      { result := retry, err := none, events := [], finalizeCalled := true,
        observeCalled := false, actionExecuted := false, objFinal := some obj }
    | .ok true =>
      match removeFinalizerStep r env.removeFinalizerUpdateErr obj with
      | (obj1, some _) =>
        { result := retry, err := none, events := [finalizeFail],
          finalizeCalled := true, observeCalled := false,
          actionExecuted := false, objFinal := some obj1 }
      | (obj1, none) =>
        { result := forget, err := none, events := [], finalizeCalled := true,
          observeCalled := false, actionExecuted := false, objFinal := some obj1 }

/-- The tail of Reconcile from Actor.Observe on: classify an Observe error;
on no action emit success, set Synced=True, write status, forget; on an
action set Synced=False, write status, execute the action and classify its
error, else retry. -/
def observeBranch (r : ROpts) (env : Env) (obj1 : Obj) : Out :=
  match env.observe with
  | .error e =>
    let p := processActorError r env.paeStatusUpdateErr obj1 e
    { result := p.result, err := p.err, events := p.events,
      finalizeCalled := false, observeCalled := true, actionExecuted := false,
      objFinal := some p.obj }
  | .ok none =>
    let obj2 :=
      if obj1.isConditional then
        { obj1 with conditions := setCondition obj1.conditions (synced true obj1.generation) }
      else obj1
    match updateStatus r env.statusUpdateErr with
    | some w =>
      if w = WriteErr.conflict then
        { result := retry, err := none, events := [reconcileSuccess],
          finalizeCalled := false, observeCalled := true,
          actionExecuted := false, objFinal := some obj2 }
      else
        { result := backoff, err := some (.statusFailed w),
          events := [reconcileSuccess], finalizeCalled := false,
          observeCalled := true, actionExecuted := false, objFinal := some obj2 }
    | none =>
      { result := forget, err := none, events := [reconcileSuccess],
        finalizeCalled := false, observeCalled := true,
        actionExecuted := false, objFinal := some obj2 }
  | .ok (some _a) =>
    let obj2 :=
      if obj1.isConditional then
        { obj1 with conditions := setCondition obj1.conditions (synced false obj1.generation) }
      else obj1
    match updateStatus r env.statusUpdateErr with
    | some w =>
      if w = WriteErr.conflict then
        { result := retry, err := none, events := [], finalizeCalled := false,
          observeCalled := true, actionExecuted := false, objFinal := some obj2 }
      else
        { result := backoff, err := some (.statusFailed w), events := [],
          finalizeCalled := false, observeCalled := true,
          actionExecuted := false, objFinal := some obj2 }
    | none =>
      match env.actionErr with
      | some e =>
        let p := processActorError r env.paeStatusUpdateErr obj2 e
        { result := p.result, err := p.err, events := p.events,
          finalizeCalled := false, observeCalled := true,
          actionExecuted := true, objFinal := some p.obj }
      | none =>
        { result := retry, err := none, events := [], finalizeCalled := false,
          observeCalled := true, actionExecuted := true, objFinal := some obj2 }

/-- The active (non-deleted) flow of Reconcile: the Dependant gate, then
ensureFinalizer with its conflict downgrade, then the Observe tail. -/
def activeBranch (r : ROpts) (env : Env) (obj : Obj) : Out :=
  let gate : Option Out :=
    if obj.isDependant then
      match waitDependencies env.depResults with
      | (_, some e) =>
        some { result := backoff, err := some (.depWaitFailed e), events := [],
               finalizeCalled := false, observeCalled := false,
               actionExecuted := false, objFinal := some obj }
      | (false, none) =>
        some { result := retry, err := none, events := [],
               finalizeCalled := false, observeCalled := false,
               actionExecuted := false, objFinal := some obj }
      | (true, none) => none
    else none
  match gate with
  | some o => o
  | none =>
    match ensureFinalizer r env.finalizerUpdateErr obj with
    | (obj1, some w) =>
      if w = WriteErr.conflict then
        { result := retry, err := none, events := [], finalizeCalled := false,
          observeCalled := false, actionExecuted := false, objFinal := some obj1 }
      else
        { result := backoff, err := some (.finalizerFailed w), events := [],
          finalizeCalled := false, observeCalled := false,
          actionExecuted := false, objFinal := some obj1 }
    | (obj1, none) => observeBranch r env obj1

/-- Reconcile: fetch (not-found is forgotten via util.Ignore), branch on the
deletion timestamp into finalize, else the active flow. -/
def reconcile (r : ROpts) (env : Env) : Out :=
  match env.fetch with
  | .error ge =>
    { result := forget,
      err := if ge.isNotFound then none else some (.getFailed ge),
      events := [], finalizeCalled := false, observeCalled := false,
      actionExecuted := false, objFinal := none }
  | .ok obj =>
    if obj.deleted then finalize r env obj
    else activeBranch r env obj

/-- An object as the patch builder sees it: the immutable identity pair and
the rest of the (deep-comparable) payload. -/
structure PObj where
  ns : String
  name : String
  payload : List (String × String)
deriving DecidableEq, Repr

/-- An error a Patch / PatchStatus call can return. -/
inductive PatchErr where
  | mutateFnErr (code : Nat)
  | identityMutated
  | writeErr (e : WriteErr)
deriving DecidableEq, Repr

/-- Context.buildPatch: snapshot, run mutateFn (which may both mutate and
error), reject identity mutation, skip unchanged objects, otherwise build a
merge patch from the snapshot. Returns (patch?, error?, mutated object). -/
def buildPatch (obj : PObj) (mutateFn : PObj → PObj × Option Nat) :
    Option PObj × Option PatchErr × PObj :=
  let key := (obj.ns, obj.name)
  let before := obj
  let m := mutateFn obj
  match m.2 with
  | some e => (none, some (.mutateFnErr e), m.1)
  | none =>
    if (m.1.ns, m.1.name) ≠ key then (none, some .identityMutated, m.1)
    else if m.1 = before then (none, none, m.1)
    else (some before, none, m.1)

/-- Context.Patch: no patch means return buildPatch's error (possibly nil)
without any write; otherwise issue the write (storeErr is its outcome). The
Bool reports whether a write was issued to the store. -/
def patchCall (storeErr : Option WriteErr) (obj : PObj)
    (mutateFn : PObj → PObj × Option Nat) : Option PatchErr × Bool :=
  match buildPatch obj mutateFn with
  | (none, e, _) => (e, false)
  | (some _p, _, _) => (storeErr.map PatchErr.writeErr, true)

/-- Context.PatchStatus: same builder, the write goes to the status
subresource (sErr is its outcome). -/
def patchStatusCall (sErr : Option WriteErr) (obj : PObj)
    (mutateFn : PObj → PObj × Option Nat) : Option PatchErr × Bool :=
  match buildPatch obj mutateFn with
  | (none, e, _) => (e, false)
  | (some _p, _, _) => (sErr.map PatchErr.writeErr, true)

/-- A runtime.Scheme as setupObjectFactory consults it: ObjectKinds for the
template type (which may itself error), and scheme.New per kind. -/
structure FScheme where
  objectKinds : Except Nat (List Nat)
  newErr : Nat → Option Nat

/-- An error setupObjectFactory can return. -/
inductive SetupErr where
  | kindsFailed (e : Nat)
  | wrongKindCount (n : Nat)
  | newFailed (e : Nat)
deriving DecidableEq, Repr

/-- r.setupObjectFactory: resolve the type's kinds, demand exactly one,
pre-flight scheme.New, and on success fix the gvk the factory will use. -/
def setupObjectFactory (s : FScheme) : Except SetupErr Nat :=
  match s.objectKinds with
  | .error e => .error (.kindsFailed e)
  | .ok gvks =>
    match gvks with
    | [gvk] =>
      match s.newErr gvk with
      | some e => .error (.newFailed e)
      | none => .ok gvk
    | l => .error (.wrongKindCount l.length)

/-- What a call of the factory closure newT produces: an object of the
registered kind, or the panic taken when scheme.New fails. -/
inductive NewT where
  | ok (gvk : Nat)
  | panicked (e : Nat)
deriving DecidableEq, Repr

/-- The factory closure installed by setupObjectFactory: scheme.New again,
panicking if it fails. -/
def newT (s : FScheme) (gvk : Nat) : NewT :=
  match s.newErr gvk with
  | some e => .panicked e
  | none => .ok gvk

/-! Helper lemmas about the embedded engine. -/

theorem processActorError_resync (r : ROpts) (swErr : Option WriteErr) (obj : Obj)
    (e : ActorErr) (d : Duration) (hnil : e.isNilInterface = false)
    (hres : e.resyncAfter = some d) (hsw : updateStatus r swErr = none) :
    (processActorError r swErr obj e).result = { requeue := true, requeueAfter := d } ∧
    (processActorError r swErr obj e).err = none ∧
    (processActorError r swErr obj e).events = [] := by
  unfold processActorError
  simp [hnil, hres, hsw]

theorem processActorError_otherCase (r : ROpts) (swErr : Option WriteErr) (obj : Obj)
    (e : ActorErr) (hnil : e.isNilInterface = false) (hres : e.resyncAfter = none)
    (hconf : e.isConflict = false) (hsw : updateStatus r swErr = none) :
    (processActorError r swErr obj e).result = backoff ∧
    (processActorError r swErr obj e).events = [reconcileFail] ∧
    (processActorError r swErr obj e).err =
      (if e.hasStack then none else some (.actorFailed e)) := by
  unfold processActorError
  simp [hnil, hres, hsw, hconf]
  by_cases hs : e.hasStack <;> simp [hs]

theorem reconcile_reaches_observe (r : ROpts) (env : Env) (obj : Obj)
    (hfetch : env.fetch = .ok obj) (hdel : obj.deleted = false)
    (hdeps : obj.isDependant = true → waitDependencies env.depResults = (true, none))
    (hfin : (ensureFinalizer r env.finalizerUpdateErr obj).2 = none) :
    reconcile r env =
      observeBranch r env (ensureFinalizer r env.finalizerUpdateErr obj).1 := by
  unfold reconcile
  rw [hfetch]
  simp only [hdel, Bool.false_eq_true, if_false]
  unfold activeBranch
  rcases hEF : ensureFinalizer r env.finalizerUpdateErr obj with ⟨obj1, w⟩
  rw [hEF] at hfin
  simp only at hfin
  subst hfin
  cases hD : obj.isDependant with
  | false => simp [hD, hEF]
  | true => simp [hD, hdeps hD, hEF]

theorem waitDependencies_all_ready (deps : List DepOutcome) :
    waitDependencies deps = (true, none) ↔ ∀ x ∈ deps, x = DepOutcome.ready := by
  induction deps with
  | nil => simp [waitDependencies]
  | cons x rest ih => cases x <;> simp [waitDependencies, ih]

/-- The (ready, error) pair waitDependencies reports at its first non-ready
entry. -/
def firstFailSignal : DepOutcome → Option Nat
  | .errored e => some e
  | _ => none

theorem waitDependencies_first_failure (pre post : List DepOutcome) (d : DepOutcome)
    (hpre : ∀ x ∈ pre, x = DepOutcome.ready) (hd : d ≠ DepOutcome.ready) :
    depsEvaluated (pre ++ d :: post) = pre.length + 1 ∧
    waitDependencies (pre ++ d :: post) = (false, firstFailSignal d) := by
  induction pre with
  | nil =>
    cases d with
    | ready => exact absurd rfl hd
    | notReady => simp [waitDependencies, depsEvaluated, firstFailSignal]
    | errored e => simp [waitDependencies, depsEvaluated, firstFailSignal]
  | cons x pre ih =>
    have hx : x = DepOutcome.ready := hpre x (by simp)
    subst hx
    have hpre2 : ∀ y ∈ pre, y = DepOutcome.ready := fun y hy => hpre y (by simp [hy])
    obtain ⟨h1, h2⟩ := ih hpre2
    constructor
    · have hstep : depsEvaluated (DepOutcome.ready :: (pre ++ d :: post)) =
          1 + depsEvaluated (pre ++ d :: post) := rfl
      rw [List.cons_append, hstep, h1, List.length_cons]
      omega
    · simpa [waitDependencies] using h2

/-- Claim C5: the dependency resolver evaluates declared entries strictly in
declaration order; it stops at the first erroring entry with (false, that
error) and at the first not-ready entry with (false, nil), never evaluating
the entries after it; and it returns (true, nil) exactly when every entry is
ready. -/
theorem waitDependencies_fail_fast_spec (deps pre post : List DepOutcome)
    (d : DepOutcome) :
    (waitDependencies deps = (true, none) ↔ ∀ x ∈ deps, x = DepOutcome.ready) ∧
    (deps = pre ++ d :: post → (∀ x ∈ pre, x = DepOutcome.ready) →
      d ≠ DepOutcome.ready →
      depsEvaluated deps = pre.length + 1 ∧
      waitDependencies deps = (false, firstFailSignal d)) :=
  ⟨waitDependencies_all_ready deps,
   fun hdeps hpre hd => hdeps ▸ waitDependencies_first_failure pre post d hpre hd⟩

/-- Witness for C5: on the list [ready, errored 3, notReady] the resolver
stops at the second entry with its error, having evaluated two entries. -/
theorem waitDependencies_fail_fast_spec_witness :
    waitDependencies [DepOutcome.ready, DepOutcome.errored 3, DepOutcome.notReady] =
      (false, some 3) ∧
    depsEvaluated [DepOutcome.ready, DepOutcome.errored 3, DepOutcome.notReady] = 2 := by
  have h := (waitDependencies_fail_fast_spec
    [DepOutcome.ready, DepOutcome.errored 3, DepOutcome.notReady]
    [DepOutcome.ready] [DepOutcome.notReady] (DepOutcome.errored 3)).2
    rfl (by decide) (by decide)
  exact ⟨h.2, h.1⟩

/-- Claim C4: when Observe returns an action, the status write succeeds and
the action succeeds, the invocation returns the fixed 2-second requeue with
nil error, never forget. -/
theorem reconcile_action_success_retries (r : ROpts) (env : Env) (obj : Obj)
    (a : Nat)
    (hfetch : env.fetch = .ok obj) (hdel : obj.deleted = false)
    (hdeps : obj.isDependant = true → waitDependencies env.depResults = (true, none))
    (hfin : (ensureFinalizer r env.finalizerUpdateErr obj).2 = none)
    (hobs : env.observe = .ok (some a))
    (hstatus : updateStatus r env.statusUpdateErr = none)
    (hact : env.actionErr = none) :
    (reconcile r env).result = retry ∧ (reconcile r env).err = none ∧
    (reconcile r env).result ≠ forget ∧
    retry = { requeue := true, requeueAfter := 2 * second } := by
  rw [reconcile_reaches_observe r env obj hfetch hdel hdeps hfin]
  unfold observeBranch
  rw [hobs]
  simp [hstatus, hact, retry, forget, defaultRequeueAfter]

/-- A reconciler configuration with every skip option off. -/
def rA : ROpts :=
  { name := "test", skipFinalizer := false, skipPatchFinalizer := false,
    skipStatusSync := false }

/-- A live object already carrying this reconciler's finalizer marker. -/
def objA : Obj :=
  { ns := "d", name := "x", generation := 1,
    finalizers := ["matrixorigin.io/test"], deleted := false,
    isConditional := false, conditions := [], isDependant := false }

/-- An environment in which every external call succeeds and Observe returns
an action whose execution succeeds. -/
def envC4 : Env :=
  { fetch := .ok objA, depResults := [], finalizerUpdateErr := none,
    observe := .ok (some 1), statusUpdateErr := none, actionErr := none,
    paeStatusUpdateErr := none, finalizeResult := .ok true,
    removeFinalizerUpdateErr := none }

/-- Witness for C4 at a concrete successful-action invocation. -/
theorem reconcile_action_success_retries_witness :
    (reconcile rA envC4).result = retry ∧ (reconcile rA envC4).err = none ∧
    (reconcile rA envC4).result ≠ forget := by
  have h := reconcile_action_success_retries rA envC4 objA 1 rfl rfl
    (by intro h; exact absurd h (by decide)) (by decide) rfl rfl rfl
  exact ⟨h.1, h.2.1, h.2.2.1⟩

theorem buildPatch_identity_error (obj : PObj) (mutateFn : PObj → PObj × Option Nat)
    (h : ((mutateFn obj).1.ns, (mutateFn obj).1.name) ≠ (obj.ns, obj.name)) :
    ∃ e, buildPatch obj mutateFn = (none, some e, (mutateFn obj).1) := by
  unfold buildPatch
  rcases hm : mutateFn obj with ⟨o2, ferr⟩
  rw [hm] at h
  cases ferr with
  | some e => exact ⟨.mutateFnErr e, by simp⟩
  | none => exact ⟨.identityMutated, by simp [h]⟩

/-- Claim C6: a Patch or PatchStatus call whose mutation callback changes the
object's namespace or name returns a non-nil error, and no write is issued to
the store. -/
theorem patch_identity_immutable (storeErr sErr : Option WriteErr) (obj : PObj)
    (mutateFn : PObj → PObj × Option Nat)
    (h : ((mutateFn obj).1.ns, (mutateFn obj).1.name) ≠ (obj.ns, obj.name)) :
    (∃ e, patchCall storeErr obj mutateFn = (some e, false)) ∧
    (∃ e, patchStatusCall sErr obj mutateFn = (some e, false)) := by
  obtain ⟨e, hb⟩ := buildPatch_identity_error obj mutateFn h
  exact ⟨⟨e, by unfold patchCall; rw [hb]⟩, ⟨e, by unfold patchStatusCall; rw [hb]⟩⟩

/-- Witness for C6: a callback renaming the object is rejected without a
write. -/
theorem patch_identity_immutable_witness :
    (∃ e, patchCall none { ns := "a", name := "b", payload := [] }
        (fun o => ({ o with name := "c" }, none)) = (some e, false)) ∧
    (∃ e, patchStatusCall none { ns := "a", name := "b", payload := [] }
        (fun o => ({ o with name := "c" }, none)) = (some e, false)) :=
  patch_identity_immutable none none { ns := "a", name := "b", payload := [] }
    (fun o => ({ o with name := "c" }, none)) (by decide)

/-- Counterexample to C7 as stated: a mutation callback that changes nothing
but itself returns an error makes Patch return that (non-nil) error — though
still with no write issued — whereas the claim promises a nil return. -/
theorem patch_noop_errorful_callback_counterexample :
    (patchCall none { ns := "a", name := "b", payload := [] }
        (fun o => (o, some 7))).2 = false ∧
    (patchCall none { ns := "a", name := "b", payload := [] }
        (fun o => (o, some 7))).1 ≠ none ∧
    (fun (o : PObj) => (o, (some 7 : Option Nat)))
        { ns := "a", name := "b", payload := [] } =
      ({ ns := "a", name := "b", payload := [] }, some 7) := by
  decide

/-- Claim C7 (amended: the callback must also return no error; an erroring
callback still issues no write but its error is returned): a successful
mutation callback that leaves the object deep-equal to its pre-mutation
snapshot makes Patch and PatchStatus skip the write and return nil. -/
theorem patch_noop_skips_write (storeErr sErr : Option WriteErr) (obj : PObj)
    (mutateFn : PObj → PObj × Option Nat) (h : mutateFn obj = (obj, none)) :
    patchCall storeErr obj mutateFn = (none, false) ∧
    patchStatusCall sErr obj mutateFn = (none, false) := by
  have hb : buildPatch obj mutateFn = (none, none, obj) := by
    unfold buildPatch
    rw [h]
    simp
  constructor
  · unfold patchCall
    rw [hb]
  · unfold patchStatusCall
    rw [hb]

/-- Witness for C7 (amended) at a concrete no-op callback. -/
theorem patch_noop_skips_write_witness :
    patchCall none { ns := "a", name := "b", payload := [] } (fun o => (o, none)) =
      (none, false) ∧
    patchStatusCall none { ns := "a", name := "b", payload := [] }
        (fun o => (o, none)) = (none, false) :=
  patch_noop_skips_write none none { ns := "a", name := "b", payload := [] }
    (fun o => (o, none)) rfl

/-- Claim C8: when neither skip-finalizer nor skip-patch-finalizer is set and
ensureFinalizer reports no error, the object's finalizer list contains this
reconciler's marker. -/
theorem ensureFinalizer_marker_present (r : ROpts) (updErr : Option WriteErr)
    (obj : Obj)
    (h1 : r.skipFinalizer = false) (h2 : r.skipPatchFinalizer = false)
    (h3 : (ensureFinalizer r updErr obj).2 = none) :
    finalizerOf r ∈ (ensureFinalizer r updErr obj).1.finalizers := by
  unfold ensureFinalizer addFinalizer at *
  simp only [h1, h2, Bool.false_eq_true, if_false] at h3 ⊢
  by_cases hm : finalizerOf r ∈ obj.finalizers
  · simp [hm]
  · simp [hm]

/-- Witness for C8: starting from an object without the marker and a
successful update, the marker is present afterwards. -/
theorem ensureFinalizer_marker_present_witness :
    (ensureFinalizer rA none
      { ns := "d", name := "x", generation := 1, finalizers := [],
        deleted := false, isConditional := false, conditions := [],
        isDependant := false }).2 = none ∧
    finalizerOf rA ∈ (ensureFinalizer rA none
      { ns := "d", name := "x", generation := 1, finalizers := [],
        deleted := false, isConditional := false, conditions := [],
        isDependant := false }).1.finalizers :=
  ⟨by decide,
   ensureFinalizer_marker_present rA none
    { ns := "d", name := "x", generation := 1, finalizers := [],
      deleted := false, isConditional := false, conditions := [],
      isDependant := false } rfl rfl (by decide)⟩

/-- Claim C9: registration errors exactly when the type does not resolve to a
single constructible kind — the kinds lookup fails, the kind count differs
from one, or the pre-flight construction fails — and after a successful
registration the factory never takes its panic branch. -/
theorem setupObjectFactory_eager_validation (s : FScheme) :
    ((∃ e, setupObjectFactory s = .error e) ↔
      ¬ ∃ g, s.objectKinds = .ok [g] ∧ s.newErr g = none) ∧
    (∀ g, setupObjectFactory s = .ok g → newT s g = .ok g) := by
  constructor
  · unfold setupObjectFactory
    rcases hk : s.objectKinds with e | gvks
    · simp [hk]
    · rcases gvks with _ | ⟨g, rest⟩
      · simp [hk]
      · rcases rest with _ | ⟨g2, rest2⟩
        · rcases hn : s.newErr g with _ | e2
          · simp [hk, hn]
          · simp [hk, hn]
        · simp [hk]
  · intro g hg
    unfold setupObjectFactory at hg
    rcases hk : s.objectKinds with e | gvks <;> rw [hk] at hg
    · simp at hg
    · rcases gvks with _ | ⟨g1, rest⟩
      · simp at hg
      · rcases rest with _ | ⟨g2, rest2⟩
        · rcases hn : s.newErr g1 with _ | e2 <;> simp [hn] at hg
          subst hg
          unfold newT
          rw [hn]
        · simp at hg

/-- A scheme resolving the template to exactly one constructible kind. -/
def schemeOK : FScheme := { objectKinds := .ok [5], newErr := fun _ => none }

/-- Witness for C9: registration succeeds on schemeOK and the factory then
produces an object rather than panicking. -/
theorem setupObjectFactory_eager_validation_witness :
    setupObjectFactory schemeOK = .ok 5 ∧ newT schemeOK 5 = .ok 5 :=
  ⟨rfl, (setupObjectFactory_eager_validation schemeOK).2 5 rfl⟩

theorem observeBranch_actor_error (r : ROpts) (env : Env) (obj1 : Obj)
    (e : ActorErr)
    (hsrc : env.observe = .error e ∨
      (∃ a, env.observe = .ok (some a) ∧ updateStatus r env.statusUpdateErr = none ∧
        env.actionErr = some e)) :
    ∃ o : Obj,
      (observeBranch r env obj1).result =
        (processActorError r env.paeStatusUpdateErr o e).result ∧
      (observeBranch r env obj1).err =
        (processActorError r env.paeStatusUpdateErr o e).err ∧
      (observeBranch r env obj1).events =
        (processActorError r env.paeStatusUpdateErr o e).events := by
  rcases hsrc with hobs | ⟨a, hobs, hst, hact⟩
  · refine ⟨obj1, ?_⟩
    unfold observeBranch
    rw [hobs]
    exact ⟨rfl, rfl, rfl⟩
  · refine ⟨if obj1.isConditional then
        { obj1 with conditions := setCondition obj1.conditions (synced false obj1.generation) }
      else obj1, ?_⟩
    unfold observeBranch
    rw [hobs, hst, hact]
    exact ⟨rfl, rfl, rfl⟩

/-- An actor error carrying a 10-second resync request. -/
def resyncErr10 : ActorErr :=
  { isNilInterface := false, resyncAfter := some (10 * second), isConflict := false,
    hasStack := false }

/-- A plain domain error: non-nil cause, no resync, no conflict, no stack. -/
def plainErr : ActorErr :=
  { isNilInterface := false, resyncAfter := none, isConflict := false,
    hasStack := false }

/-- Environment: Observe returns the 10-second resync error, but the nested
Synced=False status write fails with a non-conflict error. -/
def envC1 : Env :=
  { fetch := .ok objA, depResults := [], finalizerUpdateErr := none,
    observe := .error resyncErr10, statusUpdateErr := none, actionErr := none,
    paeStatusUpdateErr := some .other, finalizeResult := .ok true,
    removeFinalizerUpdateErr := none }

/-- The same invocation with the nested status write succeeding. -/
def envC1ok : Env := { envC1 with paeStatusUpdateErr := none }

/-- Counterexample to C1 as stated: Observe requests a 10-second resync, but
because the nested status write fails, the invocation returns the fixed
2-second retry instead of the requested delay (error still nil, no failure
event). -/
theorem reconcile_resync_counterexample :
    (reconcile rA envC1).result ≠ { requeue := true, requeueAfter := 10 * second } ∧
    (reconcile rA envC1).result = retry ∧
    (reconcile rA envC1).err = none ∧
    reconcileFail ∉ (reconcile rA envC1).events := by
  decide

/-- Claim C1 (amended: provided the nested Synced=False status write performed
while classifying the error returns no error): an actor error carrying a
resync signal with delay d makes the invocation return (requeue-after d, nil)
with no failure event emitted. -/
theorem reconcile_resync_custom_delay (r : ROpts) (env : Env) (obj : Obj)
    (e : ActorErr) (d : Duration)
    (hfetch : env.fetch = .ok obj) (hdel : obj.deleted = false)
    (hdeps : obj.isDependant = true → waitDependencies env.depResults = (true, none))
    (hfin : (ensureFinalizer r env.finalizerUpdateErr obj).2 = none)
    (hsrc : env.observe = .error e ∨
      (∃ a, env.observe = .ok (some a) ∧ updateStatus r env.statusUpdateErr = none ∧
        env.actionErr = some e))
    (hnil : e.isNilInterface = false) (hres : e.resyncAfter = some d)
    (hpae : updateStatus r env.paeStatusUpdateErr = none) :
    (reconcile r env).result = { requeue := true, requeueAfter := d } ∧
    (reconcile r env).err = none ∧
    reconcileFail ∉ (reconcile r env).events := by
  rw [reconcile_reaches_observe r env obj hfetch hdel hdeps hfin]
  obtain ⟨o, h1, h2, h3⟩ := observeBranch_actor_error r env
    (ensureFinalizer r env.finalizerUpdateErr obj).1 e hsrc
  obtain ⟨p1, p2, p3⟩ :=
    processActorError_resync r env.paeStatusUpdateErr o e d hnil hres hpae
  rw [h1, h2, h3, p1, p2, p3]
  simp

/-- Witness for C1 (amended): with the nested write succeeding, the 10-second
delay is honoured. -/
theorem reconcile_resync_custom_delay_witness :
    (reconcile rA envC1ok).result = { requeue := true, requeueAfter := 10 * second } ∧
    (reconcile rA envC1ok).err = none := by
  have h := reconcile_resync_custom_delay rA envC1ok objA resyncErr10 (10 * second)
    rfl rfl (by intro hh; exact absurd hh (by decide)) (by decide)
    (Or.inl rfl) rfl rfl rfl
  exact ⟨h.1, h.2.1⟩

/-- Counterexample to C2 as stated: in the 'any other error' case, a
non-conflict failure of the nested Synced=False status write yields the fixed
retry with a nil error, not requeue-with-backoff with the error. -/
theorem processActorError_nested_write_counterexample :
    (processActorError rA (some WriteErr.other) objA plainErr).result = retry ∧
    (processActorError rA (some WriteErr.other) objA plainErr).result ≠ backoff ∧
    (processActorError rA (some WriteErr.other) objA plainErr).err = none := by
  decide

/-- Claim C2 (amended: a non-conflict error on the nested status write also
yields requeue-after(fixed) with no error — not the requeue-with-backoff of
the converged path): whatever error the nested Synced=False status write
returns during actor-error classification, the invocation outcome is the
fixed-delay retry with nil error. -/
theorem processActorError_nested_write_outcome (r : ROpts) (w : WriteErr)
    (obj : Obj) (e : ActorErr)
    (hnil : e.isNilInterface = false) (hs : r.skipStatusSync = false) :
    (processActorError r (some w) obj e).result = retry ∧
    (processActorError r (some w) obj e).err = none := by
  unfold processActorError
  simp only [hnil, Bool.false_eq_true, if_false]
  unfold updateStatus
  simp only [hs, Bool.false_eq_true, if_false]
  by_cases hw : w = WriteErr.conflict <;> simp [hw]

/-- Witness for C2 (amended) at a concrete conflicting nested write. -/
theorem processActorError_nested_write_outcome_witness :
    (processActorError rA (some WriteErr.conflict) objA plainErr).result = retry ∧
    (processActorError rA (some WriteErr.conflict) objA plainErr).err = none :=
  processActorError_nested_write_outcome rA WriteErr.conflict objA plainErr rfl rfl

/-- A deleted object that does not carry this reconciler's marker. -/
def objDelNoMark : Obj :=
  { ns := "d", name := "x", generation := 1, finalizers := [], deleted := true,
    isConditional := false, conditions := [], isDependant := false }

/-- A configuration with the skip-patch-finalizer option set. -/
def rSkipPatch : ROpts :=
  { name := "test", skipFinalizer := false, skipPatchFinalizer := true,
    skipStatusSync := false }

/-- Environment fetching the deleted, unmarked object; Finalize would report
not-done. -/
def envC3 : Env :=
  { fetch := .ok objDelNoMark, depResults := [], finalizerUpdateErr := none,
    observe := .ok none, statusUpdateErr := none, actionErr := none,
    paeStatusUpdateErr := none, finalizeResult := .ok false,
    removeFinalizerUpdateErr := none }

/-- Counterexample to C3 as stated: with the skip-patch-finalizer option set,
a deleted object without the marker still has Actor.Finalize invoked and the
invocation does not return forget. -/
theorem finalize_no_marker_counterexample :
    (reconcile rSkipPatch envC3).finalizeCalled = true ∧
    (reconcile rSkipPatch envC3).result ≠ forget := by
  decide

/-- Claim C3 (amended: provided the skip-patch-finalizer option is not
configured): a deleted object whose finalizer list lacks this reconciler's
marker is forgotten at once with nil error and Actor.Finalize is never
called. -/
theorem reconcile_deleted_without_marker (r : ROpts) (env : Env) (obj : Obj)
    (hfetch : env.fetch = .ok obj) (hdel : obj.deleted = true)
    (hskip : r.skipPatchFinalizer = false)
    (hmark : finalizerOf r ∉ obj.finalizers) :
    (reconcile r env).result = forget ∧ (reconcile r env).err = none ∧
    (reconcile r env).finalizeCalled = false := by
  unfold reconcile
  rw [hfetch]
  simp only [hdel, if_true]
  unfold finalize
  simp [hskip, hmark]

/-- Witness for C3 (amended) at a concrete deleted, unmarked object with the
default options. -/
theorem reconcile_deleted_without_marker_witness :
    (reconcile rA envC3).result = forget ∧
    (reconcile rA envC3).finalizeCalled = false := by
  have h := reconcile_deleted_without_marker rA envC3 objDelNoMark rfl rfl rfl
    (by decide)
  exact ⟨h.1, h.2.2⟩

/-- Environment: Observe returns a plain domain error and the nested
Synced=False status write fails with a non-conflict error. -/
def envC10 : Env :=
  { fetch := .ok objA, depResults := [], finalizerUpdateErr := none,
    observe := .error plainErr, statusUpdateErr := none, actionErr := none,
    paeStatusUpdateErr := some .other, finalizeResult := .ok true,
    removeFinalizerUpdateErr := none }

/-- The same invocation with the nested status write succeeding. -/
def envC10ok : Env := { envC10 with paeStatusUpdateErr := none }

/-- Counterexample to C10 as stated: for a plain 'any other' actor error, a
failing nested status write short-circuits classification — no failure event
is emitted, the outcome is the fixed retry (not backoff) and no error is
propagated. -/
theorem reconcile_other_error_counterexample :
    (reconcile rA envC10).result = retry ∧
    (reconcile rA envC10).result ≠ backoff ∧
    (reconcile rA envC10).events = [] ∧
    (reconcile rA envC10).err = none := by
  decide

/-- Claim C10 (amended: provided the nested Synced=False status write returns
no error): an actor error that is not nil-cause misuse, not a resync signal
and not a conflict leads to a failure event and the backoff outcome, with the
error propagated exactly when it carries no go-errors stack trace. -/
theorem reconcile_other_error_backoff (r : ROpts) (env : Env) (obj : Obj)
    (e : ActorErr)
    (hfetch : env.fetch = .ok obj) (hdel : obj.deleted = false)
    (hdeps : obj.isDependant = true → waitDependencies env.depResults = (true, none))
    (hfin : (ensureFinalizer r env.finalizerUpdateErr obj).2 = none)
    (hsrc : env.observe = .error e ∨
      (∃ a, env.observe = .ok (some a) ∧ updateStatus r env.statusUpdateErr = none ∧
        env.actionErr = some e))
    (hnil : e.isNilInterface = false) (hres : e.resyncAfter = none)
    (hconf : e.isConflict = false)
    (hpae : updateStatus r env.paeStatusUpdateErr = none) :
    (reconcile r env).result = backoff ∧
    reconcileFail ∈ (reconcile r env).events ∧
    (reconcile r env).err =
      (if e.hasStack then none else some (.actorFailed e)) := by
  rw [reconcile_reaches_observe r env obj hfetch hdel hdeps hfin]
  obtain ⟨o, h1, h2, h3⟩ := observeBranch_actor_error r env
    (ensureFinalizer r env.finalizerUpdateErr obj).1 e hsrc
  obtain ⟨p1, p2, p3⟩ :=
    processActorError_otherCase r env.paeStatusUpdateErr o e hnil hres hconf hpae
  rw [h1, h2, h3, p1, p2, p3]
  simp

/-- Witness for C10 (amended): with the nested write succeeding, a plain
error yields backoff, a failure event, and the error propagated. -/
theorem reconcile_other_error_backoff_witness :
    (reconcile rA envC10ok).result = backoff ∧
    reconcileFail ∈ (reconcile rA envC10ok).events ∧
    (reconcile rA envC10ok).err = some (.actorFailed plainErr) := by
  have h := reconcile_other_error_backoff rA envC10ok objA plainErr
    rfl rfl (by intro hh; exact absurd hh (by decide)) (by decide)
    (Or.inl rfl) rfl rfl rfl rfl
  exact ⟨h.1, h.2.1, by rw [h.2.2]; decide⟩

end CtrlRun
